import Mathlib

/-
  Verification of the sid-nav database navigator.

  Shallow embedding of:
  - server.js: the /api/rows/:table/:page/:pageSize handler (query building,
    the Direct (dev) and Proxy execution paths, connection lifecycle,
    response assembly), the /api/tableNames/:db handler, and the
    /api/databases handler, together with the module-level mutable
    `dbConfig` object they share;
  - queryFunctions.js: the `anyQuery` remote-proxy wrapper;
  - src/components/Navigator.tsx: the client view state machine
    (fetchTableData result application, handleSort, handleFilterChange with
    its 300ms debounce timer and the render-snapshot closure it captures).
-/

namespace SidNav

/-- The single-quote character, written with an escape; the server
interpolates filter values into SQL text between two of these. -/
def sq : String := "\x27"

/-- A database row, as the JSON object the backends return:
an ordered association of column name to rendered scalar. -/
abbrev Row := List (String × String)

/-- A bound statement parameter: the server pushes strings (the transformed
filter values) and numbers (limit, offset). -/
inductive SqlParam
  | s (v : String)
  | n (v : Int)
deriving DecidableEq

/-! ## Character-level string helpers

JS `String.prototype.trim`, substring search and `toLowerCase` are modelled
directly on the character list so that every definition evaluates. -/

/-- Strip whitespace from both ends, as JS `value.trim()`. -/
def jsTrim (s : String) : String :=
  String.mk (((s.data.dropWhile Char.isWhitespace).reverse.dropWhile
    Char.isWhitespace).reverse)

def isPrefixChars : List Char → List Char → Bool
  | [], _ => true
  | _ :: _, [] => false
  | x :: xs, y :: ys => x == y && isPrefixChars xs ys

def hasSubstrChars (needle : List Char) (hay : List Char) : Bool :=
  match hay with
  | [] => isPrefixChars needle []
  | _ :: rest => isPrefixChars needle hay || hasSubstrChars needle rest

/-- Decides whether the second argument occurs in the first. -/
def strHasSubstr (hay needle : String) : Bool :=
  hasSubstrChars needle.data hay.data

/-- JS `toLowerCase`, per character. -/
def jsToLower (s : String) : String := String.mk (s.data.map Char.toLower)

/-! ## Query building (server.js, /api/rows handler) -/

/-- server.js drops filter entries whose value is falsy or trims to the
empty string; a JS string is truthy iff nonempty, so the predicate is
equivalent to a non-blank trimmed value. -/
def nonBlankFilters (filterObj : List (String × String)) : List (String × String) :=
  filterObj.filter (fun kv => jsTrim kv.2 != "")

/-- server.js: the condition text pushed for each non-blank filter —
the key, then LIKE, then the value between percent signs and single
quotes; note the value is interpolated into the text. -/
def filterConditions (nb : List (String × String)) : List String :=
  nb.map (fun kv => kv.1 ++ " LIKE " ++ sq ++ "%" ++ kv.2 ++ "%" ++ sq)

/-- server.js: `filterParams.push(`%${value}%`)` for each non-blank filter. -/
def filterParams (nb : List (String × String)) : List SqlParam :=
  nb.map (fun kv => SqlParam.s ("%" ++ kv.2 ++ "%"))

/-- server.js: the WHERE keyword followed by the conditions joined with
AND when any condition exists, else the empty string. -/
def whereClause (nb : List (String × String)) : String :=
  if (filterConditions nb).isEmpty then ""
  else "WHERE " ++ String.intercalate " AND " (filterConditions nb)

/-- Membership in the safe identifier class (letters, digits, underscore),
the complement of the regex character class the sanitizer deletes. -/
def isSafeChar (c : Char) : Bool := c.isAlphanum || c == '_'

/-- server.js sanitizes sortBy with a global regex replace that deletes
every character outside the safe class — deletion, not rejection. -/
def sanitizeSortBy (s : String) : String := String.mk (s.data.filter isSafeChar)

/-- server.js: DESC exactly for an explicit desc sortDirection, else ASC. -/
def sanitizedDirection (sortDirection : Option String) : String :=
  if sortDirection == some "desc" then "DESC" else "ASC"

/-- server.js: the ORDER BY clause; `if (sortBy)` is false for an absent or
empty query parameter. -/
def orderByClause (sortBy sortDirection : Option String) : String :=
  match sortBy with
  | some s =>
      if s != "" then
        "ORDER BY " ++ sanitizeSortBy s ++ " " ++ sanitizedDirection sortDirection
      else ""
  | none => ""

/-- server.js: `` `SELECT COUNT(*) as total FROM ${table} ${whereClause}` ``. -/
def countQueryText (table : String) (nb : List (String × String)) : String :=
  "SELECT COUNT(*) as total FROM " ++ table ++ " " ++ whereClause nb

/-- server.js: the data statement template literal, reproduced with its
exact whitespace; `limit` and `offset` are interpolated as text too. -/
def dataQueryText (table : String) (nb : List (String × String))
    (sortBy sortDirection : Option String) (limit offset : Int) : String :=
  "\n      SELECT * FROM " ++ table ++ " \n      " ++ whereClause nb ++ " \n      "
    ++ orderByClause sortBy sortDirection
    ++ "\n      LIMIT " ++ toString limit ++ " OFFSET " ++ toString offset ++ "\n    "

/-! ## queryFunctions.js: anyQuery -/

/-- The option object accepted by `anyQuery`. The destructuring pattern in
queryFunctions.js names only `prj`, `ds`, `tbl`, `select`, `conditions`;
the `params` field is what server.js passes at its call sites, and it is
not in the destructured set, so nothing in `anyQuery` ever reads it. -/
structure AnyQueryOptions where
  prj : String := "magnetic-runway-428121"
  ds : String := "schools"
  tbl : String := ""
  select : String := "*"
  conditions : List String := []
  params : List SqlParam := []

/-- queryFunctions.js: `` `SELECT ${select} FROM ${tbl} ${conditions.join(" ")};` ``. -/
def anyQueryText (o : AnyQueryOptions) : String :=
  "SELECT " ++ o.select ++ " FROM " ++ o.tbl ++ " "
    ++ String.intercalate " " o.conditions ++ ";"

/-! ## The /api/rows handler (server.js) -/

/-- The parameters reaching the rows handler. `page` and `pageSize` arrive
as route segments and are read through `parseInt`; they are modelled after
that parse, as integers. `filters` models `req.query.filters`:
`none` when absent, `some (.error ())` when `JSON.parse` throws,
`some (.ok obj)` for a parsed object (entry order preserved). -/
structure RowsRequest where
  table : String
  pageNum : Int
  limit : Int
  sortBy : Option String
  sortDirection : Option String
  filters : Option (Except Unit (List (String × String)))

/-- The JSON body of a successful rows response (server.js `response`). -/
structure RowsResponse where
  rows : List Row
  totalCount : Nat
  currentPage : Int
  totalPages : Nat
deriving DecidableEq

/-- The HTTP outcomes the handlers produce. -/
inductive HttpOutcome
  | badRequest (msg : String)
  | notFound (msg : String)
  | serverError
  | ok (resp : RowsResponse)
deriving DecidableEq

/-- The execution environment of one rows request: the ENV flag, the shared
`dbConfig.database` field as this request reads it, whether
`mysql.createConnection` succeeds, and the two statement executions
(count, then data), each given the statement text and bound parameters and
returning rows or a thrown error. The count result is the list of `total`
fields of the returned rows. -/
structure Backend where
  devMode : Bool
  dbDatabase : Option String
  connectOk : Bool
  runCount : String → List SqlParam → Except Unit (List Nat)
  runData : String → List SqlParam → Except Unit (List Row)

/-- What one handler run did: HTTP outcome, the statements issued to the
backend (text with bound parameters), and the Direct-connection lifecycle
(whether one was opened, whether it was closed, and the `database` field of
the config it was opened with). -/
structure HandlerResult where
  outcome : HttpOutcome
  issued : List (String × List SqlParam)
  connOpened : Bool
  connClosed : Bool
  connTarget : Option String
deriving DecidableEq

/-- server.js: `Math.ceil(totalCount[0].total / limit)` for a natural count
and (as the claims assume, `pageSize ≥ 1`) a positive integer limit; the
floating-point behaviour for a nonpositive limit is outside the claims and
mapped to 0. -/
def jsCeilDiv (total : Nat) (limit : Int) : Nat :=
  if 0 < limit then (total + limit.toNat - 1) / limit.toNat else 0

/-- server.js: the `filters` query parameter handling — absent means no
filtering, a JSON.parse failure is answered with 400
`Invalid filters format`. -/
def parseFilters :
    Option (Except Unit (List (String × String))) → Except String (List (String × String))
  | none => .ok []
  | some (.error _) => .error "Invalid filters format"
  | some (.ok obj) => .ok obj

/-- server.js, after both statements ran: the empty-rows check answers 404
`No data found`; otherwise the response is assembled, where reading
`totalCount[0].total` on an empty count result throws (caught as a 500). -/
def finishRows (r : RowsRequest) (countRows : List Nat) (rows : List Row) : HttpOutcome :=
  if rows.isEmpty then .notFound "No data found"
  else
    match countRows with
    | [] => .serverError
    | total :: _ =>
        .ok { rows := rows, totalCount := total, currentPage := r.pageNum,
              totalPages := jsCeilDiv total r.limit }

/-- The /api/rows/:table/:page/:pageSize handler. Express only routes the
request when all three path segments are nonempty, and the emptiness guard
is modelled on `table`. In dev (Direct) mode a connection is opened against
the shared config and closed in a `finally`; otherwise both built
statements are wrapped by `anyQuery`, whose option object receives the
bound parameters in a `params` field it never reads, so the proxy
statements are issued with no parameters at all. -/
def rowsHandler (b : Backend) (r : RowsRequest) : HandlerResult :=
  if r.table = "" then
    { outcome := .badRequest "Table name, page, and page size are required",
      issued := [], connOpened := false, connClosed := false, connTarget := none }
  else
    match parseFilters r.filters with
    | .error m =>
        { outcome := .badRequest m, issued := [],
          connOpened := false, connClosed := false, connTarget := none }
    | .ok filterObj =>
      let nb := nonBlankFilters filterObj
      let fps := filterParams nb
      let offset := (r.pageNum - 1) * r.limit
      let countQuery := countQueryText r.table nb
      let dataQuery := dataQueryText r.table nb r.sortBy r.sortDirection r.limit offset
      let dps := fps ++ [SqlParam.n r.limit, SqlParam.n offset]
      if b.devMode then
        match b.dbDatabase with
        | none =>
            { outcome := .badRequest "Database not selected", issued := [],
              connOpened := false, connClosed := false, connTarget := none }
        | some db =>
          if b.connectOk then
            match b.runCount countQuery fps with
            | .error _ =>
                { outcome := .serverError, issued := [(countQuery, fps)],
                  connOpened := true, connClosed := true, connTarget := some db }
            | .ok countRows =>
              match b.runData dataQuery dps with
              | .error _ =>
                  { outcome := .serverError,
                    issued := [(countQuery, fps), (dataQuery, dps)],
                    connOpened := true, connClosed := true, connTarget := some db }
              | .ok rows =>
                  { outcome := finishRows r countRows rows,
                    issued := [(countQuery, fps), (dataQuery, dps)],
                    connOpened := true, connClosed := true, connTarget := some db }
          else
            { outcome := .serverError, issued := [],
              connOpened := false, connClosed := false, connTarget := none }
      else
        let countWrapped := anyQueryText { tbl := countQuery, select := "*", params := fps }
        let dataWrapped := anyQueryText { tbl := dataQuery, select := "*", params := dps }
        match b.runCount countWrapped [] with
        | .error _ =>
            { outcome := .serverError, issued := [(countWrapped, [])],
              connOpened := false, connClosed := false, connTarget := none }
        | .ok countRows =>
          match b.runData dataWrapped [] with
          | .error _ =>
              { outcome := .serverError, issued := [(countWrapped, []), (dataWrapped, [])],
                connOpened := false, connClosed := false, connTarget := none }
          | .ok rows =>
              { outcome := finishRows r countRows rows,
                issued := [(countWrapped, []), (dataWrapped, [])],
                connOpened := false, connClosed := false, connTarget := none }

/-! ## The /api/tableNames/:db and /api/databases handlers, and the shared
module-level `dbConfig` object they mutate and read. -/

/-- The mutable part of the module-level `dbConfig` object of server.js:
its `database` field, initialised to `null` and assigned by the tableNames
handler. -/
structure ServerState where
  dbDatabase : Option String
deriving DecidableEq

/-- Environment of a listing request (tableNames / databases): ENV flag,
whether `mysql.createConnection` succeeds, and the statement execution. -/
structure ListBackend where
  devMode : Bool
  connectOk : Bool
  run : String → Except Unit (List Row)

/-- Outcome of a listing request. -/
inductive ListOutcome
  | badRequest (msg : String)
  | notFound (msg : String)
  | serverError
  | ok (rows : List Row)
deriving DecidableEq

/-- Outcome plus connection lifecycle of a listing request. -/
structure ListResult where
  outcome : ListOutcome
  connOpened : Bool
  connClosed : Bool
  connTarget : Option String
deriving DecidableEq

/-- The /api/tableNames/:db handler. It assigns `dbConfig.database = db`
before querying. In dev mode the body is createConnection, then execute
SHOW TABLES, then end, inside a try whose catch returns 500 — so when
execute throws, the connection is never ended. Returns the updated shared
state alongside the result. -/
def tableNamesHandler (st : ServerState) (b : ListBackend) (db : String) :
    ServerState × ListResult :=
  if db = "" then
    (st, { outcome := .badRequest "Database name is required",
           connOpened := false, connClosed := false, connTarget := none })
  else
    let st2 : ServerState := { dbDatabase := some db }
    if b.devMode then
      if b.connectOk then
        match b.run "SHOW TABLES" with
        | .error _ =>
            (st2, { outcome := .serverError,
                    connOpened := true, connClosed := false, connTarget := some db })
        | .ok rows =>
            if rows.isEmpty then
              (st2, { outcome := .notFound "No tables found in database",
                      connOpened := true, connClosed := true, connTarget := some db })
            else
              (st2, { outcome := .ok rows,
                      connOpened := true, connClosed := true, connTarget := some db })
      else
        (st2, { outcome := .serverError,
                connOpened := false, connClosed := false, connTarget := none })
    else
      match b.run (anyQueryText { tbl := "SHOW TABLES", select := "*" }) with
      | .error _ =>
          (st2, { outcome := .serverError,
                  connOpened := false, connClosed := false, connTarget := none })
      | .ok rows =>
          if rows.isEmpty then
            (st2, { outcome := .notFound "No tables found in database",
                    connOpened := false, connClosed := false, connTarget := none })
          else
            (st2, { outcome := .ok rows,
                    connOpened := false, connClosed := false, connTarget := none })

/-- The /api/databases handler. In dev mode: createConnection on the
shared config, then execute SHOW DATABASES, then end, with no inner
try/finally — a throwing execute reaches the outer catch with the
connection still open. -/
def databasesHandler (st : ServerState) (b : ListBackend) : ListResult :=
  if b.devMode then
    if b.connectOk then
      match b.run "SHOW DATABASES" with
      | .error _ =>
          { outcome := .serverError,
            connOpened := true, connClosed := false, connTarget := st.dbDatabase }
      | .ok rows =>
          if rows.isEmpty then
            { outcome := .notFound "No databases found",
              connOpened := true, connClosed := true, connTarget := st.dbDatabase }
          else
            { outcome := .ok rows,
              connOpened := true, connClosed := true, connTarget := st.dbDatabase }
    else
      { outcome := .serverError,
        connOpened := false, connClosed := false, connTarget := none }
  else
    match b.run (anyQueryText { tbl := "SHOW DATABASES", select := "*" }) with
    | .error _ =>
        { outcome := .serverError,
          connOpened := false, connClosed := false, connTarget := none }
    | .ok rows =>
        if rows.isEmpty then
          { outcome := .notFound "No databases found",
            connOpened := false, connClosed := false, connTarget := none }
        else
          { outcome := .ok rows,
            connOpened := false, connClosed := false, connTarget := none }

/-- A rows request served by a process in shared state `st`: the read of
`dbConfig` by the handler sees the module-level field last written by
whichever request assigned it. -/
def serveRows (st : ServerState) (b : Backend) (r : RowsRequest) : HandlerResult :=
  rowsHandler { b with dbDatabase := st.dbDatabase } r

/-! ## SQL semantics of the built statements

The Direct backend is MySQL; the built statements are plain
SELECT/WHERE-LIKE/ORDER BY/LIMIT/OFFSET queries, whose meaning over the
contents of a table is given here so that response-shape claims can be
settled. -/

/-- Lexicographic order on character lists (string comparison). -/
def charsLe : List Char → List Char → Bool
  | [], _ => true
  | _ :: _, [] => false
  | x :: xs, y :: ys => if x == y then charsLe xs ys else decide (x.toNat ≤ y.toNat)

/-- MySQL LIKE with percent wildcards around the value, under the default
case-insensitive collation: case-insensitive substring containment. -/
def likeMatches (cell value : String) : Bool :=
  strHasSubstr (jsToLower cell) (jsToLower value)

/-- A row satisfies the built WHERE clause when, for every non-blank
filter, its column exists and matches its LIKE pattern. -/
def rowMatches (nb : List (String × String)) (row : Row) : Bool :=
  nb.all (fun kv =>
    match row.lookup kv.1 with
    | some cell => likeMatches cell kv.2
    | none => false)

/-- Row comparison for ORDER BY on one column (absent column reads as the
empty string, as SQL NULL sorts first). -/
def rowLe (col : String) (asc : Bool) (a b : Row) : Bool :=
  let av := ((a.lookup col).getD "").data
  let bv := ((b.lookup col).getD "").data
  if asc then charsLe av bv else charsLe bv av

def insertSorted (le : Row → Row → Bool) (x : Row) : List Row → List Row
  | [] => [x]
  | y :: ys => if le x y then x :: y :: ys else y :: insertSorted le x ys

def sortRows (le : Row → Row → Bool) : List Row → List Row
  | [] => []
  | x :: xs => insertSorted le x (sortRows le xs)

/-- Meaning of the ORDER BY clause: present exactly when the handler
emitted one (non-falsy sortBy), sorting on the sanitized column,
descending only for an explicit `desc`. -/
def applySort (sortBy sortDirection : Option String) (rows : List Row) : List Row :=
  match sortBy with
  | some col =>
      if col != "" then
        sortRows (rowLe (sanitizeSortBy col) (sortDirection != some "desc")) rows
      else rows
  | none => rows

/-- Meaning of the count statement: the size of the filtered set. -/
def sqlEvalCount (tbl : List Row) (nb : List (String × String)) : Nat :=
  (tbl.filter (rowMatches nb)).length

/-- Meaning of the data statement: filter, sort, then OFFSET/LIMIT. -/
def sqlEvalData (tbl : List Row) (nb : List (String × String))
    (sortBy sortDirection : Option String) (limit offset : Nat) : List Row :=
  ((applySort sortBy sortDirection (tbl.filter (rowMatches nb))).drop offset).take limit

/-- The parsed filter object of a request (empty when absent or malformed;
the handler answers 400 before querying in the malformed case). -/
def filterObjOf (r : RowsRequest) : List (String × String) :=
  match parseFilters r.filters with
  | .ok obj => obj
  | .error _ => []

/-- The Direct backend over concrete table contents `tbl`: both statement
executions succeed and return the SQL meaning of the statements the
handler built for `r`. -/
def semanticBackend (tbl : List Row) (r : RowsRequest) : Backend :=
  { devMode := true, dbDatabase := some "db", connectOk := true,
    runCount := fun _ _ => .ok [sqlEvalCount tbl (nonBlankFilters (filterObjOf r))],
    runData := fun _ _ =>
      .ok (sqlEvalData tbl (nonBlankFilters (filterObjOf r)) r.sortBy r.sortDirection
        r.limit.toNat ((r.pageNum - 1) * r.limit).toNat) }

/-! ## The client view state machine (src/components/Navigator.tsx) -/

/-- Navigator.tsx `sortConfig` state: a key with a direction, the latter
ranging over the string union of asc and desc. -/
structure SortConfig where
  key : String
  direction : String
deriving DecidableEq

/-- The arguments of one `fetchTableData` invocation, together with the
`activeFilters` object it serialises into the request URL. -/
structure FetchReq where
  table : String
  page : Nat
  sortBy : Option String
  sortDirection : Option String
  activeFilters : List (String × String)
deriving DecidableEq

/-- Navigator.tsx keeps the filter entries whose trimmed value is
nonempty, rebuilt in order by the reduce. -/
def activeFilters (filters : List (String × String)) : List (String × String) :=
  filters.filter (fun kv => jsTrim kv.2 != "")

/-- The state the closure of `fetchTableData` reads: the `filters`,
`openTable` and `sortConfig` values of the render in which the closure was
created. -/
structure RenderSnapshot where
  filters : List (String × String)
  openTable : Option String
  sortConfig : Option SortConfig
deriving DecidableEq

/-- The state hooks of the Navigator component, plus the pending debounce
timer (`debounceTimeout`): its deadline and the render snapshot its
callback closed over. -/
structure ClientState where
  openTable : Option String
  tableRows : List Row
  tableColumns : List String
  rowsLoading : Bool
  currentPage : Nat
  sortConfig : Option SortConfig
  filters : List (String × String)
  totalRows : Nat
  totalPages : Nat
  timer : Option (Nat × RenderSnapshot)
deriving DecidableEq

/-- A `fetchTableData(table, page, sortBy?, sortDirection?)` call made from
a render whose filters are `filters`. -/
def mkFetch (table : String) (page : Nat) (sortConfig : Option SortConfig)
    (filters : List (String × String)) : FetchReq :=
  { table := table, page := page,
    sortBy := sortConfig.map SortConfig.key,
    sortDirection := sortConfig.map SortConfig.direction,
    activeFilters := activeFilters filters }

/-- Navigator.tsx, `fetchTableData` response application:
`setTableRows(data.rows || [])`; when rows are nonempty, columns come from
the key set of the first row and the counters from the response; otherwise the
counters are zeroed and columns kept; `setRowsLoading(false)` in the
finally. Nothing ties the response to the most recently issued request. -/
def applyFetchSuccess (s : ClientState) (d : RowsResponse) : ClientState :=
  if !d.rows.isEmpty then
    { s with tableRows := d.rows,
             tableColumns := (d.rows.headD []).map Prod.fst,
             totalRows := d.totalCount, totalPages := d.totalPages,
             rowsLoading := false }
  else
    { s with tableRows := d.rows, totalRows := 0, totalPages := 0,
             rowsLoading := false }

/-- Navigator.tsx, `fetchTableData` catch branch: clear rows and counters. -/
def applyFetchFailure (s : ClientState) : ClientState :=
  { s with tableRows := [], totalRows := 0, totalPages := 0, rowsLoading := false }

/-- The asynchronous fetch events as the component observes them: an
invocation of `fetchTableData` (which sets the loading flag), and the later
arrival of a response, applied in arrival order. -/
inductive ClientEvent
  | issueFetch (req : FetchReq)
  | fetchSuccess (d : RowsResponse)
  | fetchFailure

def clientStep (s : ClientState) : ClientEvent → ClientState
  | .issueFetch _ => { s with rowsLoading := true }
  | .fetchSuccess d => applyFetchSuccess s d
  | .fetchFailure => applyFetchFailure s

def clientRun (s : ClientState) (evs : List ClientEvent) : ClientState :=
  evs.foldl clientStep s

/-- Navigator.tsx `handleSort`: toggle to `desc` only when the clicked key
is already sorted ascending; set the new config; fetch the *current* page
with the new sort, when a table is open. -/
def handleSort (s : ClientState) (key : String) : ClientState × List FetchReq :=
  let direction : String :=
    if (match s.sortConfig with
        | some sc => sc.key == key && sc.direction == "asc"
        | none => false) then "desc" else "asc"
  let s2 := { s with sortConfig := some { key := key, direction := direction } }
  match s.openTable with
  | some tb =>
      (s2, [mkFetch tb s.currentPage (some { key := key, direction := direction }) s.filters])
  | none => (s2, [])

/-- JS object update `{...prev, [key]: value}`: replace in place when the
key exists, else append. -/
def setEntry (m : List (String × String)) (key value : String) :
    List (String × String) :=
  if m.any (fun kv => kv.1 == key) then
    m.map (fun kv => if kv.1 == key then (key, value) else kv)
  else m ++ [(key, value)]

/-- Navigator.tsx `handleFilterChange` at time `t`: update the filters
state, clear any pending timer, and schedule a 300-unit timer whose
callback is a closure of this render — it will read the snapshot of this
render, i.e. the filters before the update of this keystroke is
committed. -/
def handleFilterChange (s : ClientState) (t : Nat) (key value : String) : ClientState :=
  { s with filters := setEntry s.filters key value,
           timer := some (t + 300,
             { filters := s.filters, openTable := s.openTable,
               sortConfig := s.sortConfig }) }

/-- The debounce callback firing: `setCurrentPage(1)` then
`fetchTableData(openTable, 1, sortConfig?.key, sortConfig?.direction)`,
all read from the captured render snapshot. -/
def fireTimer (s : ClientState) : ClientState × List FetchReq :=
  match s.timer with
  | none => (s, [])
  | some (_, snap) =>
      let s2 := { s with currentPage := 1, timer := none }
      match snap.openTable with
      | some tb => (s2, [mkFetch tb 1 snap.sortConfig snap.filters])
      | none => (s2, [])

/-- One keystroke at time `t`: a pending timer whose deadline has passed
fires first, then the change handler runs. -/
def keystroke (s : ClientState) (t : Nat) (key value : String) :
    ClientState × List FetchReq :=
  let fired :=
    match s.timer with
    | some (d, _) => if d ≤ t then fireTimer s else (s, [])
    | none => (s, [])
  (handleFilterChange fired.1 t key value, fired.2)

/-- A typing session: the keystrokes in time order, then enough idle time
for the remaining timer to fire. Returns the final state and every fetch
issued, in order. -/
def typeSession (s : ClientState) (evs : List (Nat × String × String)) :
    ClientState × List FetchReq :=
  let folded := evs.foldl
    (fun acc e =>
      let r := keystroke acc.1 e.1 e.2.1 e.2.2
      (r.1, acc.2 ++ r.2))
    (s, [])
  let last := fireTimer folded.1
  (last.1, folded.2 ++ last.2)

/-! ## Sanity checks for the embedding -/

example :
    filterConditions (nonBlankFilters [("name", "al"), ("age", " ")])
      = ["name LIKE " ++ sq ++ "%al%" ++ sq] := by decide

example : whereClause [] = "" := by decide

example : sanitizeSortBy "age; DROP" = "ageDROP" := by decide

example : orderByClause (some "age") (some "desc") = "ORDER BY age DESC" := by decide

example :
    anyQueryText { tbl := "SHOW TABLES", select := "*" }
      = "SELECT * FROM SHOW TABLES ;" := by decide

/-! ## Claim theorems -/

/-- C1: for the rows request `table=users, page=1, pageSize=20,
filters={"name":"al"}`, the bound-parameter list of the data statement
does contain exactly one entry per non-blank filter plus limit and offset,
but the filter value is also concatenated into the text of both statements
as a quoted LIKE pattern, and neither statement text contains a single
bound placeholder — contradicting the claim that values reach the
statements only as bound parameters. -/
theorem filter_value_concatenated_into_statement_text :
    let r : RowsRequest :=
      { table := "users", pageNum := 1, limit := 20, sortBy := none,
        sortDirection := none, filters := some (.ok [("name", "al")]) }
    let b : Backend :=
      { devMode := true, dbDatabase := some "mydb", connectOk := true,
        runCount := fun _ _ => .ok [1],
        runData := fun _ _ => .ok [[("name", "alice")]] }
    let res := rowsHandler b r
    res.issued.map Prod.snd
        = [[SqlParam.s "%al%"], [SqlParam.s "%al%", SqlParam.n 20, SqlParam.n 0]] ∧
      res.issued.all (fun q => strHasSubstr q.1 ("LIKE " ++ sq ++ "%al%" ++ sq)) = true ∧
      res.issued.all (fun q => !strHasSubstr q.1 "?") = true := by
  decide

/-- C2 counterexample: the table identifier `users; DROP TABLE x` contains
characters outside `[A-Za-z0-9_]`, yet the handler does not fail with any
400: both statements are built with the identifier interpolated verbatim,
issued against the backend, and the request completes with 200. -/
theorem unsafe_table_identifier_still_issued :
    let r : RowsRequest :=
      { table := "users; DROP TABLE x", pageNum := 1, limit := 20, sortBy := none,
        sortDirection := none, filters := none }
    let b : Backend :=
      { devMode := true, dbDatabase := some "mydb", connectOk := true,
        runCount := fun _ _ => .ok [5],
        runData := fun _ _ => .ok [[("id", "1")]] }
    let res := rowsHandler b r
    res.outcome
        = .ok { rows := [[("id", "1")]], totalCount := 5, currentPage := 1, totalPages := 1 } ∧
      res.issued.length = 2 ∧
      res.issued.all (fun q => strHasSubstr q.1 "users; DROP TABLE x") = true := by
  decide

/-- C3: with two fetches issued for the open table (page 1 then page 2) and
the page-2 response arriving before the late page-1 response, the final
displayed rows are those of page 1 — the state machine applies responses
in arrival order with no staleness guard, contradicting the claim that
only the result of the most recently issued fetch is applied. -/
theorem stale_response_overwrites_newer :
    let s0 : ClientState :=
      { openTable := some "users", tableRows := [], tableColumns := [],
        rowsLoading := false, currentPage := 1, sortConfig := none, filters := [],
        totalRows := 0, totalPages := 0, timer := none }
    let page1 : RowsResponse :=
      { rows := [[("id", "1")]], totalCount := 40, currentPage := 1, totalPages := 2 }
    let page2 : RowsResponse :=
      { rows := [[("id", "21")]], totalCount := 40, currentPage := 2, totalPages := 2 }
    let final := clientRun s0
      [ .issueFetch (mkFetch "users" 1 none []),
        .issueFetch (mkFetch "users" 2 none []),
        .fetchSuccess page2,
        .fetchSuccess page1 ]
    final.tableRows = page1.rows ∧ page1.rows ≠ page2.rows := by
  decide

/-- C4: when statement execution throws, the tableNames and databases
handlers reach their catch with the connection still open — neither ends
the connection on that path — while the try/finally of the rows handler
does close its connection on the same failure. -/
theorem listing_handlers_leak_connection_on_execute_error :
    let lb : ListBackend := { devMode := true, connectOk := true, run := fun _ => .error () }
    let tn := (tableNamesHandler { dbDatabase := none } lb "mydb").2
    let dbs := databasesHandler { dbDatabase := some "mydb" } lb
    let rb : Backend :=
      { devMode := true, dbDatabase := some "mydb", connectOk := true,
        runCount := fun _ _ => .error (), runData := fun _ _ => .error () }
    let rr := rowsHandler rb
      { table := "users", pageNum := 1, limit := 20, sortBy := none,
        sortDirection := none, filters := none }
    (tn.connOpened = true ∧ tn.connClosed = false) ∧
      (dbs.connOpened = true ∧ dbs.connClosed = false) ∧
      (rr.connOpened = true ∧ rr.connClosed = true) := by
  decide

/-- C5: the database a Direct-mode /api/rows request connects to is read
from the shared module-level `dbConfig`, whose `database` field is whatever
the most recent /api/tableNames request wrote — the same rows request
targets different databases in two runs that differ only in that earlier
request, contradicting noninterference. -/
theorem rows_target_depends_on_last_tableNames :
    let lb : ListBackend :=
      { devMode := true, connectOk := true, run := fun _ => .ok [[("Tables_in_db", "t")]] }
    let b : Backend :=
      { devMode := true, dbDatabase := none, connectOk := true,
        runCount := fun _ _ => .ok [1], runData := fun _ _ => .ok [[("id", "1")]] }
    let r : RowsRequest :=
      { table := "users", pageNum := 1, limit := 20, sortBy := none,
        sortDirection := none, filters := none }
    let stA := (tableNamesHandler { dbDatabase := none } lb "alpha").1
    let stB := (tableNamesHandler { dbDatabase := none } lb "beta").1
    (serveRows stA b r).connTarget = some "alpha" ∧
      (serveRows stB b r).connTarget = some "beta" ∧
      (serveRows stA b r).connTarget ≠ (serveRows stB b r).connTarget := by
  decide

/-- C8: three keystrokes on the `name` filter (values `a`, `al`, `ali`) at
times 0, 100, 200 — each within the 300-unit window — issue exactly one
fetch, for page 1 as claimed; but the fetch carries the filter value `al`,
captured from the render before the last keystroke, not the value `ali`
of the last keystroke, which the claim requires. -/
theorem debounced_fetch_uses_stale_filter_value :
    let s0 : ClientState :=
      { openTable := some "users", tableRows := [], tableColumns := [],
        rowsLoading := false, currentPage := 5, sortConfig := none, filters := [],
        totalRows := 0, totalPages := 0, timer := none }
    let result := typeSession s0 [(0, "name", "a"), (100, "name", "al"), (200, "name", "ali")]
    result.2 = [{ table := "users", page := 1, sortBy := none, sortDirection := none,
                  activeFilters := [("name", "al")] }] ∧
      result.1.filters = [("name", "ali")] ∧
      result.1.currentPage = 1 ∧
      result.2 ≠ [{ table := "users", page := 1, sortBy := none, sortDirection := none,
                    activeFilters := [("name", "ali")] }] := by
  decide

/-- C7: whatever the request and ENV mode, when both statements execute
successfully and the data statement returns zero rows, the handler answers
404 `No data found` — not a 500. -/
theorem empty_result_is_notFound (dm : Bool) (d : String) (cs : List Nat)
    (r : RowsRequest) (fo : List (String × String))
    (hT : r.table ≠ "")
    (hF : parseFilters r.filters = .ok fo) :
    (rowsHandler
      { devMode := dm, dbDatabase := some d, connectOk := true,
        runCount := fun _ _ => .ok cs, runData := fun _ _ => .ok [] } r).outcome
      = .notFound "No data found" := by
  unfold rowsHandler
  rw [if_neg hT, hF]
  cases dm <;> rfl

/-- C7 witness: an empty `users` table in dev mode gets the 404. -/
theorem empty_result_is_notFound_witness :
    (rowsHandler
      { devMode := true, dbDatabase := some "mydb", connectOk := true,
        runCount := fun _ _ => .ok [0], runData := fun _ _ => .ok [] }
      { table := "users", pageNum := 1, limit := 20, sortBy := none,
        sortDirection := none, filters := none }).outcome
      = .notFound "No data found" :=
  empty_result_is_notFound true "mydb" [0]
    { table := "users", pageNum := 1, limit := 20, sortBy := none,
      sortDirection := none, filters := none } [] (by decide) rfl

/-- C10: a sort click keeps `currentPage` and the filter map exactly as
they were, and the fetch it issues goes out with the existing
`currentPage` and the existing filters; only `sortConfig` changes. -/
theorem handleSort_preserves_page_and_filters (s : ClientState) (key tb : String)
    (h : s.openTable = some tb) :
    (handleSort s key).1.currentPage = s.currentPage ∧
    (handleSort s key).1.filters = s.filters ∧
    ∃ d, (handleSort s key).2
      = [mkFetch tb s.currentPage (some { key := key, direction := d }) s.filters] := by
  unfold handleSort
  rw [h]
  exact ⟨rfl, rfl, _, rfl⟩

/-- C10 witness: a sort click on `age` from page 3 with a live filter. -/
theorem handleSort_preserves_page_and_filters_witness :
    let sC : ClientState :=
      { openTable := some "users", tableRows := [], tableColumns := [],
        rowsLoading := false, currentPage := 3, sortConfig := none,
        filters := [("name", "x")], totalRows := 9, totalPages := 3, timer := none }
    (handleSort sC "age").1.currentPage = sC.currentPage ∧
    (handleSort sC "age").1.filters = sC.filters ∧
    ∃ d, (handleSort sC "age").2
      = [mkFetch "users" sC.currentPage (some { key := "age", direction := d }) sC.filters] := by
  exact handleSort_preserves_page_and_filters _ "age" "users" rfl

/-- C9: `anyQuery` builds its remote query ignoring the `params` field
entirely; with the call-site arguments the server passes (select star, no
conditions) the query it sends is exactly the template
`SELECT * FROM <tbl> ;` with the whole already-built statement substituted
for `<tbl>`; and on the Proxy path every statement the rows handler issues
goes out with an empty bound-parameter list. -/
theorem anyQuery_wraps_statement_and_drops_params
    (o : AnyQueryOptions) (p1 p2 : List SqlParam) (tblQ : String)
    (b : Backend) (r : RowsRequest) (fo : List (String × String))
    (hdev : b.devMode = false) (hT : r.table ≠ "")
    (hF : parseFilters r.filters = .ok fo) :
    anyQueryText { o with params := p1 } = anyQueryText { o with params := p2 } ∧
    anyQueryText { tbl := tblQ, select := "*", params := p1 }
      = "SELECT * FROM " ++ tblQ ++ " ;" ∧
    ∀ qp ∈ (rowsHandler b r).issued, qp.2 = ([] : List SqlParam) := by
  refine ⟨rfl, ?_, ?_⟩
  · apply String.ext
    simp [anyQueryText, String.intercalate, String.data_append]
  · unfold rowsHandler
    rw [if_neg hT, hF]
    simp only [hdev, Bool.false_eq_true, if_false]
    split
    · intro qp hqp
      simp only [List.mem_singleton] at hqp
      subst hqp; rfl
    · split <;>
        · intro qp hqp
          simp only [List.mem_cons, List.mem_singleton, List.not_mem_nil, or_false] at hqp
          rcases hqp with rfl | rfl <;> rfl

/-- C9 witness: the proxy-path rows request with one filter issues both
wrapped statements with no bound parameters. -/
theorem anyQuery_wraps_statement_and_drops_params_witness :
    anyQueryText { tbl := "q1", select := "*", params := [SqlParam.s "%al%"] }
        = anyQueryText { tbl := "q1", select := "*", params := [] } ∧
    anyQueryText { tbl := "q1", select := "*", params := [SqlParam.s "%al%"] }
        = "SELECT * FROM " ++ "q1" ++ " ;" ∧
    ∀ qp ∈ (rowsHandler
        { devMode := false, dbDatabase := none, connectOk := true,
          runCount := fun _ _ => .ok [1], runData := fun _ _ => .ok [[("id", "1")]] }
        { table := "users", pageNum := 1, limit := 20, sortBy := none,
          sortDirection := none, filters := some (.ok [("name", "al")]) }).issued,
      qp.2 = ([] : List SqlParam) := by
  exact anyQuery_wraps_statement_and_drops_params
    { tbl := "q1", select := "*" } [SqlParam.s "%al%"] [] "q1"
    { devMode := false, dbDatabase := none, connectOk := true,
      runCount := fun _ _ => .ok [1], runData := fun _ _ => .ok [[("id", "1")]] }
    { table := "users", pageNum := 1, limit := 20, sortBy := none,
      sortDirection := none, filters := some (.ok [("name", "al")]) }
    [("name", "al")] rfl (by decide) rfl

/-- Characters surviving the sanitizer all lie in the safe class. -/
theorem filter_all_isSafeChar (l : List Char) :
    (l.filter isSafeChar).all isSafeChar = true := by
  induction l with
  | nil => rfl
  | cons x xs ih =>
      by_cases hx : isSafeChar x = true
      · simp [List.filter, hx, ih]
      · simp only [List.filter, Bool.not_eq_true] at hx ⊢
        rw [hx]
        exact ih

/-- C2 amended: the server performs no identifier rejection. A dev-mode
rows request that passes the presence and filter-JSON checks is never
answered 400 whatever its identifiers contain, and its statements are
issued against the backend; the only treatment of unsafe identifier
characters is on `sortBy`, which is sanitized by deleting characters
outside `[A-Za-z0-9_]` (so the interpolated sort column always matches the
safe pattern) rather than rejected. -/
theorem no_identifier_rejection_only_sortBy_sanitized
    (b : Backend) (r : RowsRequest) (fo : List (String × String)) (d : String)
    (hT : r.table ≠ "") (hF : parseFilters r.filters = .ok fo)
    (hdev : b.devMode = true) (hdb : b.dbDatabase = some d)
    (hconn : b.connectOk = true) :
    (∀ m, (rowsHandler b r).outcome ≠ .badRequest m) ∧
    (rowsHandler b r).issued ≠ [] ∧
    (∀ s dir, s ≠ "" →
      orderByClause (some s) dir
        = "ORDER BY " ++ sanitizeSortBy s ++ " " ++ sanitizedDirection dir) ∧
    (∀ s, (sanitizeSortBy s).data.all isSafeChar = true) := by
  have hbody :
      (∀ m, (rowsHandler b r).outcome ≠ .badRequest m) ∧
        (rowsHandler b r).issued ≠ [] := by
    unfold rowsHandler
    rw [if_neg hT, hF, hdb]
    simp only [hdev, if_true]
    rw [hconn]
    simp only [if_true]
    split
    · exact ⟨fun m => by simp, by simp⟩
    · split
      · exact ⟨fun m => by simp, by simp⟩
      · refine ⟨fun m => ?_, by simp⟩
        unfold finishRows
        split
        · simp
        · split <;> simp
  refine ⟨hbody.1, hbody.2, fun s dir hs => ?_, fun s => ?_⟩
  · unfold orderByClause
    have hbs : (s != "") = true := by
      simpa using hs
    simp [hbs]
  · exact filter_all_isSafeChar s.data

/-- C2 amended witness: the unsafe sort column `age; DROP` is stripped to
`ageDROP` and interpolated, and the handler still answers the request. -/
theorem no_identifier_rejection_only_sortBy_sanitized_witness :
    (∀ m, (rowsHandler
        { devMode := true, dbDatabase := some "mydb", connectOk := true,
          runCount := fun _ _ => .ok [1], runData := fun _ _ => .ok [[("id", "1")]] }
        { table := "users", pageNum := 1, limit := 20, sortBy := some "age; DROP",
          sortDirection := none, filters := none }).outcome ≠ .badRequest m) ∧
    (rowsHandler
        { devMode := true, dbDatabase := some "mydb", connectOk := true,
          runCount := fun _ _ => .ok [1], runData := fun _ _ => .ok [[("id", "1")]] }
        { table := "users", pageNum := 1, limit := 20, sortBy := some "age; DROP",
          sortDirection := none, filters := none }).issued ≠ [] ∧
    (∀ s dir, s ≠ "" →
      orderByClause (some s) dir
        = "ORDER BY " ++ sanitizeSortBy s ++ " " ++ sanitizedDirection dir) ∧
    (∀ s, (sanitizeSortBy s).data.all isSafeChar = true) := by
  exact no_identifier_rejection_only_sortBy_sanitized
    { devMode := true, dbDatabase := some "mydb", connectOk := true,
      runCount := fun _ _ => .ok [1], runData := fun _ _ => .ok [[("id", "1")]] }
    { table := "users", pageNum := 1, limit := 20, sortBy := some "age; DROP",
      sortDirection := none, filters := none }
    [] "mydb" (by decide) rfl rfl rfl rfl

/-- C6: for a positive page size, every successful rows response (over the
Direct backend evaluating the SQL meaning of the built statements on any
table contents) satisfies `totalPages = ⌈totalCount / pageSize⌉` and
carries at most `pageSize` rows. -/
theorem rows_response_pagination_invariant (tbl : List Row) (r : RowsRequest)
    (resp : RowsResponse) (hlim : 1 ≤ r.limit)
    (hok : (rowsHandler (semanticBackend tbl r) r).outcome = .ok resp) :
    resp.totalPages = resp.totalCount ⌈/⌉ r.limit.toNat ∧
    resp.rows.length ≤ r.limit.toNat := by
  unfold rowsHandler at hok
  simp only [semanticBackend] at hok
  split at hok
  · simp at hok
  · split at hok
    · simp at hok
    · unfold finishRows at hok
      simp only [] at hok
      by_cases he :
          (sqlEvalData tbl (nonBlankFilters (filterObjOf r)) r.sortBy r.sortDirection
            r.limit.toNat ((r.pageNum - 1) * r.limit).toNat).isEmpty = true
      · rw [if_pos he] at hok
        exact absurd hok (by simp)
      · rw [if_neg he] at hok
        have hre := (HttpOutcome.ok.inj hok).symm
        subst hre
        refine ⟨?_, ?_⟩
        · show jsCeilDiv _ r.limit = _
          unfold jsCeilDiv
          have hpos : (0 : Int) < r.limit := by omega
          rw [if_pos hpos]
          rfl
        · show (sqlEvalData _ _ _ _ _ _).length ≤ _
          unfold sqlEvalData
          simp [List.length_take]

/-- C6 witness: a three-row table viewed at page 2 with page size 2. -/
theorem rows_response_pagination_invariant_witness :
    let tbl : List Row := [[("id", "1")], [("id", "2")], [("id", "3")]]
    let r : RowsRequest :=
      { table := "users", pageNum := 2, limit := 2, sortBy := none,
        sortDirection := none, filters := none }
    let resp : RowsResponse :=
      { rows := [[("id", "3")]], totalCount := 3, currentPage := 2, totalPages := 2 }
    (1 : Int) ≤ r.limit ∧
    (rowsHandler (semanticBackend tbl r) r).outcome = .ok resp ∧
    (resp.totalPages = resp.totalCount ⌈/⌉ r.limit.toNat ∧
      resp.rows.length ≤ r.limit.toNat) := by
  refine ⟨by decide, by decide, ?_⟩
  exact rows_response_pagination_invariant
    [[("id", "1")], [("id", "2")], [("id", "3")]]
    { table := "users", pageNum := 2, limit := 2, sortBy := none,
      sortDirection := none, filters := none }
    { rows := [[("id", "3")]], totalCount := 3, currentPage := 2, totalPages := 2 }
    (by decide) (by decide)

end SidNav
